import Mathlib

/-!
Verification of the av-track shipment-tracking core: the carrier normalizers
(Purolator SOAP transformer, UPS REST transformer), the tracking store
(`tracked-shipment.model.ts`, `tracking-database.service.ts`), the
reconciliation cron service (`tracking-cron.service.ts`) and the carrier
registry (`tracking-service-factory.ts`), embedded shallowly as executable
Lean functions.

Conventions of the embedding:
* JavaScript `Date` values are represented by natural numbers; a carrier
  timestamp string is represented by the numeric key of its date-time
  (e.g. `2022-11-17 10:48:28` as `20221117104828`), which is order-isomorphic
  to the real timeline.  Every call site of `new Date()` receives the current
  instant as an explicit `now : Nat` argument.
* Nullable / possibly-absent JS fields are `Option` fields; a field that the
  carrier sometimes sends as a single bare object and sometimes as an array
  is a `CollectionField` (see below).  JS `x || d` on strings is `jsOr`,
  which treats the empty string as falsy, exactly like JS.
* Mongoose documents are plain structures; the collection is a `List` of
  records, and the (trackingNo, service) unique index shows up as a
  `countP ≤ 1` hypothesis where a theorem needs it.
-/

namespace AvTrack

/-- JS string `x || d`: the default is taken when the value is absent, null,
or the empty string (all falsy in JS). -/
def jsOr (s : Option String) (d : String) : String :=
  match s with
  | some v => if v = "" then d else v
  | none => d

/-! ## Canonical (standardized) model, from `shipment-tracking.types.ts` -/

/-- Embeds `StandardizedLocation` of the canonical model: all fields plain strings. -/
structure StandardizedLocation where
  address_1 : String
  address_2 : String
  city : String
  proviceState : String
  countryCode : String
  postalZipCode : String
deriving DecidableEq

/-- Embeds `StandardizedEvent` of the canonical model. -/
structure StandardizedEvent where
  dateTime : Nat
  code : String
  description : String
  location : StandardizedLocation
deriving DecidableEq

/-- Embeds `StandardizedPackage` of the canonical model. -/
structure StandardizedPackage where
  pin : Option String
  status : String
  description : String
  lastEvent : StandardizedEvent
deriving DecidableEq

/-- Embeds `StandardizedAddress` of the canonical model. -/
structure StandardizedAddress where
  city : String
  proviceState : String
  countryCode : String
  postalZipCode : String
deriving DecidableEq

/-- Embeds `StandardizedShipment` of the canonical model. -/
structure StandardizedShipment where
  status : String
  description : String
  isDelivered : Bool
  createdDate : Nat
  shipper : StandardizedAddress
  receiver : StandardizedAddress
  packages : List StandardizedPackage
deriving DecidableEq

/-- Embeds `TrackingResponse` of the canonical model. -/
structure TrackingResponse where
  status : String
  description : String
  errors : List String
  shipment : StandardizedShipment
deriving DecidableEq

/-! ## Raw Purolator SOAP payload shapes

Every field the transformer reads defensively is an `Option`; a field the
carrier sends either as an array or as a wrapper object holding one item or
an array of items is a `CollectionField`. -/

/-- One item or a list of items, the two shapes the inner property of a
wrapper object (`events.event`, `packages.package`, `SearchResults.SearchResult`)
can take in the SOAP payload. -/
inductive OneOrMany (α : Type) where
  | one : α → OneOrMany α
  | many : List α → OneOrMany α
deriving DecidableEq

/-- A "collection" field of the raw payload: a plain array, a wrapper object
whose inner property holds one item or an array, or some other truthy value
without the inner property (normalized to the empty list). -/
inductive CollectionField (α : Type) where
  | arr : List α → CollectionField α
  | wrapped : OneOrMany α → CollectionField α
  | other : CollectionField α
deriving DecidableEq

/-- The array a `CollectionField` normalizes to, exactly as the
`Array.isArray` / inner-property cascade in the transformers computes it. -/
def CollectionField.toList : CollectionField α → List α
  | .arr xs => xs
  | .wrapped (.one x) => [x]
  | .wrapped (.many xs) => xs
  | .other => []

/-- Raw Purolator `TrackingAddress`. -/
structure TrackingAddress where
  city : Option String
  provinceState : Option String
  countryCode : Option String
  postalZipCode : Option String
deriving DecidableEq

/-- Raw Purolator package-event location. -/
structure TrackingPackageLocation where
  StreetAddress1 : Option String
  StreetAddress2 : Option String
  City : Option String
  provinceState : Option String
  CountryCode : Option String
  PostalCode : Option String
deriving DecidableEq

/-- Raw Purolator status object (`{code, description}`). -/
structure RawStatus where
  code : Option String
  description : Option String
deriving DecidableEq

/-- Raw Purolator event. -/
structure Event where
  dateTime : Option Nat
  code : Option String
  description : Option String
  location : Option TrackingPackageLocation
deriving DecidableEq

/-- Raw Purolator package. -/
structure Package where
  pin : Option String
  status : Option RawStatus
  events : Option (CollectionField Event)
  lastEvent : Option Event
deriving DecidableEq

/-- Raw Purolator shipment `details` object. -/
structure ShipmentDetails where
  shipper : Option TrackingAddress
  receiver : Option TrackingAddress
deriving DecidableEq

/-- Raw Purolator `ShipmentInfo`. -/
structure ShipmentInfo where
  status : Option RawStatus
  shipmentCreated : Option Nat
  details : Option ShipmentDetails
  packages : Option (CollectionField Package)
deriving DecidableEq

/-- Raw Purolator top-level error (`{Code, Description, AdditionalInformation}`). -/
structure PurolatorError where
  Code : String
  Description : String
  AdditionalInformation : Option String
deriving DecidableEq

/-- Raw Purolator per-shipment error. -/
structure ShipmentError where
  code : Option String
  description : Option String
deriving DecidableEq

/-- Raw Purolator `ResponseInformation`; `Errors` is `none` when absent, null
or not an array. -/
structure ResponseInformation where
  Errors : Option (List PurolatorError)
deriving DecidableEq

/-- Raw Purolator `SearchResult`. -/
structure SearchResult where
  status : Option String
  shipmentErrors : Option (List ShipmentError)
  Shipment : Option ShipmentInfo
deriving DecidableEq

/-- The object holding `ResponseInformation` and `SearchResults`, either
found directly at `soapResponse[0]` or inside
`TrackingByPinsOrReferencesResult`. -/
structure SoapResult where
  ResponseInformation : Option ResponseInformation
  SearchResults : Option (CollectionField SearchResult)
deriving DecidableEq

/-- One element of the array the SOAP client returns: either wrapped in
`TrackingByPinsOrReferencesResult` or carrying the result directly. -/
inductive SoapElement where
  | wrapped : SoapResult → SoapElement
  | direct : SoapResult → SoapElement
deriving DecidableEq

/-! ## Purolator transformer (`tracking-response-transformer.ts`) -/

/-- Embeds `createEmptyShipment` of the Purolator transformer. -/
def createEmptyShipment (now : Nat) : StandardizedShipment :=
  { status := ""
    description := ""
    isDelivered := false
    createdDate := now
    shipper := { city := "", proviceState := "", countryCode := "", postalZipCode := "" }
    receiver := { city := "", proviceState := "", countryCode := "", postalZipCode := "" }
    packages := [] }

/-- Embeds `createEmptyEvent` of the Purolator transformer. -/
def createEmptyEvent (now : Nat) : StandardizedEvent :=
  { dateTime := now
    code := ""
    description := ""
    location := { address_1 := "", address_2 := "", city := "", proviceState := ""
                  countryCode := "", postalZipCode := "" } }

/-- Embeds `transformLocation`. -/
def transformLocation (location : Option TrackingPackageLocation) : StandardizedLocation :=
  { address_1 := jsOr (location.bind (·.StreetAddress1)) ""
    address_2 := jsOr (location.bind (·.StreetAddress2)) ""
    city := jsOr (location.bind (·.City)) ""
    proviceState := jsOr (location.bind (·.provinceState)) ""
    countryCode := jsOr (location.bind (·.CountryCode)) ""
    postalZipCode := jsOr (location.bind (·.PostalCode)) "" }

/-- Embeds `transformEvent`. -/
def transformEvent (now : Nat) (event : Event) : StandardizedEvent :=
  { dateTime := event.dateTime.getD now
    code := jsOr event.code ""
    description := jsOr event.description ""
    location := transformLocation event.location }

/-- The `eventsArray` local of `transformPackage`: the events collection
normalized to an array, falling back to `[lastEvent]` when `events` is
absent but `lastEvent` exists. -/
def eventsArrayOf (pkg : Package) : List Event :=
  match pkg.events with
  | some ef => ef.toList
  | none =>
    match pkg.lastEvent with
    | some e => [e]
    | none => []

/-- Embeds `transformPackage`: the selected `lastEvent` is the FIRST element of the
events array ("as events are ordered newest to oldest" per the source
comment), not a maximum over timestamps. -/
def transformPackage (now : Nat) (pkg : Package) : StandardizedPackage :=
  let mostRecentEvent := (eventsArrayOf pkg).head?
  { pin := pkg.pin
    status := jsOr (pkg.status.bind (·.code)) ""
    description := jsOr (pkg.status.bind (·.description)) ""
    lastEvent :=
      match mostRecentEvent with
      | some e => transformEvent now e
      | none => createEmptyEvent now }

/-- Embeds `transformAddress`. -/
def transformAddress (address : Option TrackingAddress) : StandardizedAddress :=
  { city := jsOr (address.bind (·.city)) ""
    proviceState := jsOr (address.bind (·.provinceState)) ""
    countryCode := jsOr (address.bind (·.countryCode)) ""
    postalZipCode := jsOr (address.bind (·.postalZipCode)) "" }

/-- Embeds `transformShipmentInfo` (on the possibly-absent `firstResult?.Shipment`). -/
def transformShipmentInfo (now : Nat) : Option ShipmentInfo → StandardizedShipment
  | none => createEmptyShipment now
  | some shipmentInfo =>
    let packagesArray : List Package :=
      match shipmentInfo.packages with
      | some pf => pf.toList
      | none => []
    let statusCode := jsOr (shipmentInfo.status.bind (·.code)) ""
    { status := statusCode
      description := jsOr (shipmentInfo.status.bind (·.description)) ""
      isDelivered := statusCode == "DEL"
      createdDate := shipmentInfo.shipmentCreated.getD now
      shipper := transformAddress (shipmentInfo.details.bind (·.shipper))
      receiver := transformAddress (shipmentInfo.details.bind (·.receiver))
      packages := packagesArray.map (transformPackage now) }

/-- Rendering of a top-level Purolator error:
`"{Code}: {Description}"` suffixed with `" - {AdditionalInformation}"` when
that field is truthy. -/
def renderPurolatorError (err : PurolatorError) : String :=
  err.Code ++ ": " ++ err.Description ++
    (match err.AdditionalInformation with
     | some info => if info = "" then "" else " - " ++ info
     | none => "")

/-- Rendering of a per-shipment error: `"{code || 'ERROR'}: {description || 'Unknown error'}"`. -/
def renderShipmentError (err : ShipmentError) : String :=
  jsOr err.code "ERROR" ++ ": " ++ jsOr err.description "Unknown error"

/-- The `result` local of `transformTrackingResponse`: `soapResponse[0]`,
unwrapped from `TrackingByPinsOrReferencesResult` when present. -/
def soapResultOf (soapResponse : List SoapElement) : Option SoapResult :=
  match soapResponse.head? with
  | none => none
  | some (.wrapped r) => some r
  | some (.direct r) => some r

/-- Errors taken from `ResponseInformation.Errors` (when a non-empty array). -/
def responseInfoErrors (responseInfo : Option ResponseInformation) : List String :=
  match responseInfo.bind (·.Errors) with
  | some errs => if errs.length > 0 then errs.map renderPurolatorError else []
  | none => []

/-- The `searchResultsArray` local: `SearchResults` normalized to an array. -/
def searchResultsArrayOf (searchResults : Option (CollectionField SearchResult)) :
    List SearchResult :=
  match searchResults with
  | some sf => sf.toList
  | none => []

/-- Errors taken from `firstResult.shipmentErrors` (when a non-empty array). -/
def shipmentErrorsOf (firstResult : Option SearchResult) : List String :=
  match firstResult.bind (·.shipmentErrors) with
  | some errs => if errs.length > 0 then errs.map renderShipmentError else []
  | none => []

/-- The error response for an invalid SOAP structure. -/
def invalidStructureResponse (now : Nat) : TrackingResponse :=
  { status := "error"
    description := "Invalid SOAP response structure"
    errors := ["No valid response data found in SOAP response"]
    shipment := createEmptyShipment now }

/-- The status/description cascade of `transformTrackingResponse`. -/
def statusDescriptionOf (errors : List String) (firstResult : Option SearchResult) :
    String × String :=
  if errors.length > 0 then ("error", "Tracking request completed with errors")
  else
    match firstResult with
    | none => ("not_found", "No search results found")
    | some fr =>
      if fr.status = some "NOT_FOUND" then ("not_found", "Shipment not found")
      else if fr.Shipment.isNone then ("not_found", "No shipment information found")
      else ("success", "Tracking information retrieved successfully")

/-- Embeds `transformTrackingResponse`: the Purolator normalizer entry point. -/
def transformTrackingResponse (now : Nat) (soapResponse : List SoapElement) :
    TrackingResponse :=
  match soapResultOf soapResponse with
  | none => invalidStructureResponse now
  | some result =>
    if result.ResponseInformation.isNone && result.SearchResults.isNone then
      invalidStructureResponse now
    else
      let errors := responseInfoErrors result.ResponseInformation
      let searchResultsArray := searchResultsArrayOf result.SearchResults
      let firstResult := searchResultsArray.head?
      let errors := errors ++ shipmentErrorsOf firstResult
      let sd := statusDescriptionOf errors firstResult
      { status := sd.1
        description := sd.2
        errors := errors
        shipment := transformShipmentInfo now (firstResult.bind (·.Shipment)) }

/-! ## Raw UPS payload shapes and transformer (`ups-transformer.ts`) -/

/-- Raw UPS status object. -/
structure UpsStatus where
  code : Option String
  description : Option String
deriving DecidableEq

/-- Raw UPS address. -/
structure UpsAddress where
  city : Option String
  stateProvince : Option String
  postalCode : Option String
  country : Option String
  countryCode : Option String
  addressLine1 : Option String
  addressLine2 : Option String
deriving DecidableEq

/-- Raw UPS activity location. -/
structure UpsLocation where
  address : Option UpsAddress
deriving DecidableEq

/-- Raw UPS activity.  `date`/`time` are the `YYYYMMDD`/`HHMMSS` strings. -/
structure UpsActivity where
  date : String
  time : String
  status : UpsStatus
  location : Option UpsLocation
deriving DecidableEq

/-- Raw UPS package address entry (`type` is `ORIGIN` or `DESTINATION`). -/
structure UpsPackageAddress where
  addrType : String
  address : UpsAddress
deriving DecidableEq

/-- Raw UPS package (only the fields the transformer reads). -/
structure UpsPackage where
  trackingNumber : String
  activity : Option (List UpsActivity)
  currentStatus : Option UpsStatus
  packageAddress : Option (List UpsPackageAddress)
deriving DecidableEq

/-- Raw UPS warning. -/
structure UpsWarning where
  code : String
  message : String
deriving DecidableEq

/-- Raw UPS shipment. -/
structure UpsShipment where
  inquiryNumber : String
  package : Option (List UpsPackage)
  warnings : Option (List UpsWarning)
deriving DecidableEq

/-- Body of `trackResponse`. -/
structure UpsTrackResponseBody where
  shipment : Option (List UpsShipment)
deriving DecidableEq

/-- Raw UPS API response. -/
structure UpsTrackApiResponse where
  trackResponse : Option UpsTrackResponseBody
deriving DecidableEq

/-- Embeds `parseUpsDateTime`: the `YYYYMMDD` and `HHMMSS` strings parsed into the
numeric date-time key (falling back to 0 where JS `parseInt` would not
produce a number). -/
def parseUpsDateTime (date time : String) : Nat :=
  let year := ((date.take 4).toNat?).getD 0
  let month := (((date.drop 4).take 2).toNat?).getD 0
  let day := (((date.drop 6).take 2).toNat?).getD 0
  let hours := ((time.take 2).toNat?).getD 0
  let minutes := (((time.drop 2).take 2).toNat?).getD 0
  let seconds := (((time.drop 4).take 2).toNat?).getD 0
  ((((year * 100 + month) * 100 + day) * 100 + hours) * 100 + minutes) * 100 + seconds

/-- Embeds `createEmptyEvent` of the UPS transformer. -/
def upsCreateEmptyEvent (now : Nat) : StandardizedEvent :=
  { dateTime := now
    code := ""
    description := ""
    location := { address_1 := "", address_2 := "", city := "", proviceState := ""
                  countryCode := "", postalZipCode := "" } }

/-- Embeds `transformUpsLocation`. -/
def transformUpsLocation (location : Option UpsLocation) : StandardizedLocation :=
  let address := location.bind (·.address)
  { address_1 := jsOr (address.bind (·.addressLine1)) ""
    address_2 := jsOr (address.bind (·.addressLine2)) ""
    city := jsOr (address.bind (·.city)) ""
    proviceState := jsOr (address.bind (·.stateProvince)) ""
    countryCode := jsOr (address.bind (·.countryCode)) (jsOr (address.bind (·.country)) "")
    postalZipCode := jsOr (address.bind (·.postalCode)) "" }

/-- Embeds `transformUpsActivity`. -/
def transformUpsActivity (activity : UpsActivity) : StandardizedEvent :=
  { dateTime := parseUpsDateTime activity.date activity.time
    code := jsOr activity.status.code ""
    description := jsOr activity.status.description ""
    location := transformUpsLocation activity.location }

/-- Embeds `transformUpsAddress`. -/
def transformUpsAddress (address : Option UpsAddress) : StandardizedAddress :=
  { city := jsOr (address.bind (·.city)) ""
    proviceState := jsOr (address.bind (·.stateProvince)) ""
    countryCode := jsOr (address.bind (·.countryCode)) (jsOr (address.bind (·.country)) "")
    postalZipCode := jsOr (address.bind (·.postalCode)) "" }

/-- Embeds `transformUpsPackage`: the selected `lastEvent` is the FIRST element of
the activity array, not a maximum over timestamps. -/
def transformUpsPackage (now : Nat) (pkg : UpsPackage) : StandardizedPackage :=
  let activities := pkg.activity.getD []
  { pin := some pkg.trackingNumber
    status := jsOr (pkg.currentStatus.bind (·.code)) ""
    description := jsOr (pkg.currentStatus.bind (·.description)) ""
    lastEvent :=
      match activities.head? with
      | some a => transformUpsActivity a
      | none => upsCreateEmptyEvent now }

/-- Embeds `transformUpsShipment`. -/
def transformUpsShipment (now : Nat) (pkg : UpsPackage) (_shipment : UpsShipment) :
    StandardizedShipment :=
  let addresses := pkg.packageAddress.getD []
  let shipperAddress := addresses.find? (·.addrType == "ORIGIN")
  let receiverAddress := addresses.find? (·.addrType == "DESTINATION")
  let activities := pkg.activity.getD []
  let createdDate :=
    match activities.getLast? with
    | some oldestActivity => parseUpsDateTime oldestActivity.date oldestActivity.time
    | none => now
  let statusCode := jsOr (pkg.currentStatus.bind (·.code)) ""
  { status := statusCode
    description := jsOr (pkg.currentStatus.bind (·.description)) ""
    isDelivered := statusCode == "011"
    createdDate := createdDate
    shipper := transformUpsAddress (shipperAddress.map (·.address))
    receiver := transformUpsAddress (receiverAddress.map (·.address))
    packages := [transformUpsPackage now pkg] }

/-- Embeds `createErrorResponse` of the UPS transformer: note the `'ERROR'`
status, upper-case and distinct from the Purolator `'error'`. -/
def upsErrorResponse (now : Nat) (errorMessage : String) : TrackingResponse :=
  { status := "ERROR"
    description := errorMessage
    errors := [errorMessage]
    shipment :=
      { status := "ERROR"
        description := errorMessage
        isDelivered := false
        createdDate := now
        shipper := { city := "", proviceState := "", countryCode := "", postalZipCode := "" }
        receiver := { city := "", proviceState := "", countryCode := "", postalZipCode := "" }
        packages := [] } }

/-- Warnings the UPS transformer extracts as errors from a shipment
(`if (shipment.warnings && shipment.warnings.length > 0)`), each rendered
as `"{code}: {message}"`. -/
def upsWarningsOf (shipment : UpsShipment) : List String :=
  match shipment.warnings with
  | some ws =>
    if ws.length > 0 then ws.map (fun w => w.code ++ ": " ++ w.message) else []
  | none => []

/-- Embeds `transformUpsResponse`: the UPS normalizer entry point.  Note the status
values it can produce: `'ERROR'` when shipment or package data is missing,
`'warning'` when carrier warnings were collected, `'success'` otherwise. -/
def transformUpsResponse (now : Nat) (upsResponse : Option UpsTrackApiResponse)
    (trackingNumber : String) : TrackingResponse :=
  let trackResponse := upsResponse.bind (·.trackResponse)
  match trackResponse.bind (·.shipment) with
  | none => upsErrorResponse now "No shipment data found in UPS response"
  | some shipments =>
    match shipments.head? with
    | none => upsErrorResponse now "No shipment data found in UPS response"
    | some shipment =>
      match shipment.package.getD [] with
      | [] => upsErrorResponse now "No package data found in UPS response"
      | p0 :: ps =>
        let packages := p0 :: ps
        let pkg := (packages.find? (·.trackingNumber == trackingNumber)).getD p0
        let errors : List String := upsWarningsOf shipment
        let status := if errors.length > 0 then "warning" else "success"
        let description := jsOr (pkg.currentStatus.bind (·.description))
          "Tracking information retrieved"
        { status := status
          description := description
          errors := errors
          shipment := transformUpsShipment now pkg shipment }

/-! ## Tracking store (`tracked-shipment.model.ts`, `tracking-database.service.ts`)

The `tracked_shipments` collection is a `List TrackedRecord`; Mongoose's
`findOne` is `List.find?` and saving a found document back is updating the
first matching record in place. -/

/-- A persisted `TrackedShipment` document. -/
structure TrackedRecord where
  trackingNo : String
  service : String
  trackingResponse : TrackingResponse
  lastUpdated : Nat
  isActive : Bool
  errorCount : Nat
  lastError : Option String
deriving DecidableEq

/-- The `{ trackingNo, service }` filter of `findOne`. -/
def keyMatches (trackingNo service : String) (r : TrackedRecord) : Bool :=
  r.trackingNo == trackingNo && r.service == service

/-- Saving a mutated found document: replace the first record satisfying `p`. -/
def updateFirstMatch (p : TrackedRecord → Bool) (f : TrackedRecord → TrackedRecord) :
    List TrackedRecord → List TrackedRecord
  | [] => []
  | r :: rs => if p r then f r :: rs else r :: updateFirstMatch p f rs

/-- The field updates `findOrCreate` applies to an existing document (and
`updateTracking` applies to `this`): overwrite the response, refresh
`lastUpdated`, reset `errorCount`, clear `lastError`.  `isActive` is not
touched. -/
def upsertRecord (trackingResponse : TrackingResponse) (now : Nat)
    (r : TrackedRecord) : TrackedRecord :=
  { r with trackingResponse := trackingResponse, lastUpdated := now
           errorCount := 0, lastError := none }

/-- Static `TrackedShipment.findOrCreate`: update the existing document for
the key, or insert a new active one with `errorCount = 0`. -/
def findOrCreate (trackingNo service : String) (trackingResponse : TrackingResponse)
    (now : Nat) (db : List TrackedRecord) : List TrackedRecord :=
  if ((db.find? (keyMatches trackingNo service)).isSome) then
    updateFirstMatch (keyMatches trackingNo service) (upsertRecord trackingResponse now) db
  else
    db ++ [{ trackingNo := trackingNo, service := service
             trackingResponse := trackingResponse, lastUpdated := now
             isActive := true, errorCount := 0, lastError := none }]

/-- Instance method `recordError`: increment `errorCount`, set `lastError`,
refresh `lastUpdated`, and deactivate in the same update once the count
reaches 10. -/
def recordErrorRecord (error : String) (now : Nat) (r : TrackedRecord) : TrackedRecord :=
  let errorCount := r.errorCount + 1
  { r with errorCount := errorCount, lastError := some error, lastUpdated := now
           isActive := if errorCount ≥ 10 then false else r.isActive }

/-- Embeds `TrackingDatabaseService.recordError`: `findOne` then the instance
method; a missing record is a no-op (the service returns `null`). -/
def recordErrorDb (trackingNo service error : String) (now : Nat)
    (db : List TrackedRecord) : List TrackedRecord :=
  if ((db.find? (keyMatches trackingNo service)).isSome) then
    updateFirstMatch (keyMatches trackingNo service) (recordErrorRecord error now) db
  else db

/-- Embeds `TrackingDatabaseService.updateTrackingResponse`: `findOne` then the
`updateTracking` instance method; a missing record is a no-op. -/
def updateTrackingResponseDb (trackingNo service : String)
    (trackingResponse : TrackingResponse) (now : Nat)
    (db : List TrackedRecord) : List TrackedRecord :=
  if ((db.find? (keyMatches trackingNo service)).isSome) then
    updateFirstMatch (keyMatches trackingNo service) (upsertRecord trackingResponse now) db
  else db

/-- The `.select('trackingNo service')` projection of the stale query. -/
structure StaleKey where
  trackingNo : String
  service : String
deriving DecidableEq

/-- The Mongo filter of `getShipmentsNeedingUpdate`:
`isActive: true`, `lastUpdated: {$lt: cutoffTime}`,
`'trackingResponse.shipment.isDelivered': {$ne: true}`. -/
def needsUpdate (cutoffTime : Nat) (r : TrackedRecord) : Bool :=
  r.isActive && decide (r.lastUpdated < cutoffTime)
    && !(r.trackingResponse.shipment.isDelivered)

/-- The `.sort({lastUpdated: 1})` ordering. -/
def lastUpdatedLE (a b : TrackedRecord) : Prop :=
  a.lastUpdated ≤ b.lastUpdated

instance : DecidableRel lastUpdatedLE := fun a b => Nat.decLe a.lastUpdated b.lastUpdated

instance : IsTotal TrackedRecord lastUpdatedLE :=
  ⟨fun a b => Nat.le_total a.lastUpdated b.lastUpdated⟩

instance : IsTrans TrackedRecord lastUpdatedLE :=
  ⟨fun _ _ _ hab hbc => Nat.le_trans hab hbc⟩

/-- Embeds `TrackingDatabaseService.getShipmentsNeedingUpdate`: filter, sort by
`lastUpdated` ascending, project to the two key fields.
`cutoffTime = now - olderThanMinutes * 60 * 1000` (in the date-key model the
subtraction truncates at 0, which no timestamp lies below). -/
def getShipmentsNeedingUpdate (now olderThanMinutes : Nat)
    (db : List TrackedRecord) : List StaleKey :=
  let cutoffTime := now - olderThanMinutes * 60 * 1000
  ((db.filter (needsUpdate cutoffTime)).insertionSort lastUpdatedLE).map
    (fun r => { trackingNo := r.trackingNo, service := r.service })

/-! ## Carrier registry (`tracking-service-factory.ts`) -/

/-- The `CarrierType` union. -/
inductive CarrierType where
  | purolator
  | ups
  | stampede
  | fedex
  | dhl
deriving DecidableEq

/-- The string a `CarrierType` value denotes. -/
def CarrierType.carrier : CarrierType → String
  | .purolator => "purolator"
  | .ups => "ups"
  | .stampede => "stampede"
  | .fedex => "fedex"
  | .dhl => "dhl"

/-- An `ITrackingService` implementation, identified by its carrier name
(the transport internals are outside the registry's contract). -/
structure ITrackingService where
  carrierName : String
deriving DecidableEq

/-- Embeds `purolatorTrackingService` singleton. -/
def purolatorTrackingService : ITrackingService := ⟨"purolator"⟩

/-- Embeds `upsTrackingService` singleton. -/
def upsTrackingService : ITrackingService := ⟨"ups"⟩

/-- A JS `Map` as an insertion-ordered association list; `set` on an
existing key overwrites in place, otherwise appends. -/
def mapSet (k : CarrierType) (v : ITrackingService) :
    List (CarrierType × ITrackingService) → List (CarrierType × ITrackingService)
  | [] => [(k, v)]
  | (k', v') :: rest => if k' = k then (k, v) :: rest else (k', v') :: mapSet k v rest

/-- Embeds `TrackingServiceRegistry` state: the `services` map. -/
structure TrackingServiceRegistry where
  services : List (CarrierType × ITrackingService)
deriving DecidableEq

/-- Embeds `register`. -/
def TrackingServiceRegistry.register (reg : TrackingServiceRegistry)
    (carrier : CarrierType) (service : ITrackingService) : TrackingServiceRegistry :=
  ⟨mapSet carrier service reg.services⟩

/-- Embeds `getSupportedCarriers`: the map's keys in insertion order. -/
def TrackingServiceRegistry.getSupportedCarriers (reg : TrackingServiceRegistry) :
    List CarrierType :=
  reg.services.map (·.1)

/-- Embeds `isSupported`. -/
def TrackingServiceRegistry.isSupported (reg : TrackingServiceRegistry)
    (carrier : CarrierType) : Bool :=
  (reg.services.lookup carrier).isSome

/-- Embeds `getService`: return the registered service, or throw an error naming the
requested carrier and the supported set. -/
def TrackingServiceRegistry.getService (reg : TrackingServiceRegistry)
    (carrier : CarrierType) : Except String ITrackingService :=
  match reg.services.lookup carrier with
  | some service => .ok service
  | none =>
    .error ("Tracking service for carrier \"" ++ carrier.carrier
      ++ "\" is not implemented. Supported carriers: "
      ++ String.intercalate ", " (reg.getSupportedCarriers.map (·.carrier)))

/-- The singleton registry, with Purolator and UPS registered by the
constructor. -/
def trackingServiceRegistry : TrackingServiceRegistry :=
  ((⟨[]⟩ : TrackingServiceRegistry).register .purolator purolatorTrackingService).register
    .ups upsTrackingService

/-- Helper `isCarrierSupported`, on the raw service string as the cron
service uses it. -/
def isCarrierSupported (carrier : String) : Bool :=
  (trackingServiceRegistry.getSupportedCarriers.map (·.carrier)).contains carrier

/-! ## Reconciliation cron service (`tracking-cron.service.ts`)

The carrier call made for one stale shipment is modelled by its outcome:
either the transport throws, or it returns a standardized response (whose
`status` may be `'error'`).  Store operations are modelled as succeeding. -/

/-- Outcome of `trackingService.trackStandardized` for one shipment. -/
inductive ShipmentOutcome where
  | throws : String → ShipmentOutcome
  | result : TrackingResponse → ShipmentOutcome
deriving DecidableEq

/-- One iteration of the update loop: skip unsupported carriers; a thrown
error is caught and recorded via `recordError`; an `'error'`-status result is
recorded via `recordError` with the joined error list; otherwise the
response is written back. -/
def processShipment (now : Nat) (db : List TrackedRecord) (key : StaleKey)
    (outcome : ShipmentOutcome) : List TrackedRecord :=
  if !(isCarrierSupported key.service) then db
  else
    match outcome with
    | .throws msg => recordErrorDb key.trackingNo key.service msg now db
    | .result resp =>
      if resp.status == "error" then
        recordErrorDb key.trackingNo key.service
          (String.intercalate ", " resp.errors) now db
      else
        updateTrackingResponseDb key.trackingNo key.service resp now db

/-- The `for (const shipment of shipmentsToUpdate)` loop, each stale key
paired with its carrier-call outcome. -/
def processShipments (now : Nat) (db : List TrackedRecord) :
    List (StaleKey × ShipmentOutcome) → List TrackedRecord
  | [] => db
  | (key, outcome) :: rest =>
    processShipments now (processShipment now db key outcome) rest

/-- The body of one pass: fetch the stale list, then iterate it with the
environment supplying each carrier call's outcome. -/
def runPass (now olderThanMinutes : Nat) (env : StaleKey → ShipmentOutcome)
    (db : List TrackedRecord) : List TrackedRecord :=
  let stale := getShipmentsNeedingUpdate now olderThanMinutes db
  processShipments now db (stale.map (fun k => (k, env k)))

/-- How a whole pass may go once started: the body may raise unexpectedly
before the loop (e.g. the stale query rejects), or it runs the loop with the
given carrier-call outcomes. -/
inductive PassRun where
  | raises : String → PassRun
  | runs : (StaleKey → ShipmentOutcome) → PassRun

/-- Embeds `TrackingCronService` state: the `isRunning` guard and the store. -/
structure CronState where
  isRunning : Bool
  db : List TrackedRecord
deriving DecidableEq

/-- Embeds `updateTrackedShipments`: if a pass is running, return at once without
starting (`Bool` result `false`); otherwise set the guard, run the pass —
the whole `try` body sits over a `catch` that only logs — and clear the
guard in `finally`, unconditionally.  Returns the new state and whether a
pass was started. -/
def updateTrackedShipments (now olderThanMinutes : Nat) (run : PassRun)
    (st : CronState) : CronState × Bool :=
  if st.isRunning then (st, false)
  else
    match run with
    | .raises _ => ({ st with isRunning := false }, true)
    | .runs env =>
      ({ isRunning := false, db := runPass now olderThanMinutes env st.db }, true)

/-- Embeds `triggerUpdate`: the manual trigger re-enters the same pass logic. -/
def triggerUpdate (now olderThanMinutes : Nat) (run : PassRun)
    (st : CronState) : CronState × Bool :=
  updateTrackedShipments now olderThanMinutes run st


/-- All errors the Purolator transformer collects from a valid result:
top-level `ResponseInformation.Errors` then the first search result's
`shipmentErrors`, in the order encountered. -/
def puroCollectedErrors (result : SoapResult) : List String :=
  responseInfoErrors result.ResponseInformation
    ++ shipmentErrorsOf (searchResultsArrayOf result.SearchResults).head?


/-- C2 counterexample fixture: the bare package of the warning-carrying UPS
response. -/
def upsWarningPackage : UpsPackage :=
  { trackingNumber := "1Z999", activity := none
    currentStatus := none, packageAddress := none }

/-- C2 counterexample fixture: a UPS shipment carrying a carrier warning. -/
def upsWarningShipment : UpsShipment :=
  { inquiryNumber := "1Z999"
    package := some [upsWarningPackage]
    warnings := some [ { code := "W01", message := "Severe weather delay" } ] }

/-- C2 counterexample fixture: a UPS response carrying a carrier warning. -/
def upsWarningFixture : UpsTrackApiResponse :=
  { trackResponse := some { shipment := some [upsWarningShipment] } }


/-- Witness fixture for C4: an event with only a code. -/
def wEvent : Event :=
  { dateTime := none, code := some "2300", description := none, location := none }

/-- Witness fixture for C4: a package whose `events` is a single bare object. -/
def wPkgA : Package :=
  { pin := none, status := none, events := some (.wrapped (.one wEvent)), lastEvent := none }

/-- Witness fixture for C4: a package with neither events nor `lastEvent`. -/
def wPkgB : Package :=
  { pin := none, status := none, events := none, lastEvent := none }

/-- Witness fixture for C4: a shipment with missing details and a
single-object `packages` collection. -/
def wSi : ShipmentInfo :=
  { status := none, shipmentCreated := none, details := none
    packages := some (.wrapped (.one wPkgA)) }

/-- A small canonical response used as concrete store input in witnesses. -/
def sampleResponse : TrackingResponse :=
  { status := "success", description := "ok", errors := [], shipment := createEmptyShipment 0 }

/-- An `'error'`-status response as the reconciliation loop may receive. -/
def errorStatusResponse : TrackingResponse :=
  { status := "error", description := "Tracking request completed with errors"
    errors := ["E1: fail"], shipment := createEmptyShipment 0 }

/-- A concrete active tracked record with no errors. -/
def wStaleRecord : TrackedRecord :=
  { trackingNo := "T1", service := "purolator", trackingResponse := sampleResponse
    lastUpdated := 0, isActive := true, errorCount := 0, lastError := none }

/-- C3 counterexample store: a fresh record driven to the 10-error
deactivation threshold by consecutive `recordError` calls. -/
def deactivatedDb : List TrackedRecord :=
  (fun db => recordErrorDb "T1" "purolator" "carrier timeout" 2 db)^[10]
    (findOrCreate "T1" "purolator" sampleResponse 1 [])

/-- C3 counterexample store after the subsequent successful upsert. -/
def afterUpsertDb : List TrackedRecord :=
  findOrCreate "T1" "purolator" sampleResponse 3 deactivatedDb

end AvTrack

namespace AvTrack

/-! ### Sanity examples on the repository's own test fixtures -/

/-- The unordered event list of the spec's scenario:
`[{Nov-15 16:52:16, 9310}, {Nov-17 10:48:28, 2300}, {Nov-14 13:26:33, 3010}]`. -/
def scenarioEvents : List Event :=
  [ { dateTime := some 20221115165216, code := some "9310"
      description := some "Mechanical delay", location := none }
  , { dateTime := some 20221117104828, code := some "2300"
      description := some "Picked up by Purolator", location := none }
  , { dateTime := some 20221114132633, code := some "3010"
      description := some "Shipment created - final manifest received", location := none } ]

/-- The spec-scenario package, events reported out of chronological order. -/
def scenarioPackage : Package :=
  { pin := some "329702318141"
    status := some { code := some "ATT", description := some "Attention" }
    events := some (.wrapped (.many scenarioEvents))
    lastEvent := none }

example : (transformPackage 0 scenarioPackage).lastEvent.code = "9310" := by rfl

example :
    (transformTrackingResponse 0
      [.wrapped { ResponseInformation := some { Errors := some [] }
                  SearchResults := some (.arr []) }]).status = "not_found" := by rfl

/-! ## Claim C9: registry resolution and its single error condition -/

/-- C9: `getService` on an unregistered carrier fails with a message naming
the requested carrier id and listing the supported set (`purolator, ups`);
on a registered carrier it returns the registered service, and this is the
registry's only error condition (failure occurs exactly when the carrier is
unsupported). -/
theorem getService_resolution (c : CarrierType) :
    (trackingServiceRegistry.isSupported c = true →
      trackingServiceRegistry.getService c = .ok ⟨c.carrier⟩)
    ∧ (trackingServiceRegistry.isSupported c = false →
      trackingServiceRegistry.getService c =
        .error ("Tracking service for carrier \"" ++ c.carrier
          ++ "\" is not implemented. Supported carriers: purolator, ups"))
    ∧ ((trackingServiceRegistry.getService c).isOk
        ↔ trackingServiceRegistry.isSupported c = true) := by
  cases c
  case purolator => exact ⟨fun _ => rfl, fun h => absurd h (by decide), by decide⟩
  case ups => exact ⟨fun _ => rfl, fun h => absurd h (by decide), by decide⟩
  case stampede => exact ⟨fun h => absurd h (by decide), fun _ => rfl, by decide⟩
  case fedex => exact ⟨fun h => absurd h (by decide), fun _ => rfl, by decide⟩
  case dhl => exact ⟨fun h => absurd h (by decide), fun _ => rfl, by decide⟩

/-- Witness for C9 at concrete carriers: `purolator` resolves, `fedex`
fails with the diagnosable message. -/
theorem getService_resolution_witness :
    trackingServiceRegistry.getService .purolator = .ok ⟨"purolator"⟩
    ∧ trackingServiceRegistry.getService .fedex =
        .error ("Tracking service for carrier \"" ++ CarrierType.fedex.carrier
          ++ "\" is not implemented. Supported carriers: purolator, ups") :=
  ⟨(getService_resolution .purolator).1 (by decide),
   (getService_resolution .fedex).2.1 (by decide)⟩

/-! ## Claim C6: one pass at a time, guard released unconditionally -/

/-- C6: if a pass is running, a tick (or manual trigger, which re-enters the
same logic) returns at once without starting a new pass and without touching
state; if no pass is running, a pass starts, and whatever the pass does —
complete normally or fail unexpectedly — the `isRunning` guard is `false`
afterwards, so the scheduler cannot stay stuck in the running state. -/
theorem cron_single_pass_guard (now m : Nat) (run : PassRun) (st : CronState) :
    (st.isRunning = true → updateTrackedShipments now m run st = (st, false))
    ∧ (st.isRunning = false →
        (updateTrackedShipments now m run st).2 = true
        ∧ (updateTrackedShipments now m run st).1.isRunning = false)
    ∧ triggerUpdate now m run st = updateTrackedShipments now m run st := by
  refine ⟨fun h => ?_, fun h => ?_, rfl⟩
  · simp [updateTrackedShipments, h]
  · cases run <;> simp [updateTrackedShipments, h]

/-- Witness for C6: a busy scheduler skips the tick; an idle scheduler whose
pass raises still ends with the guard cleared. -/
theorem cron_single_pass_guard_witness :
    updateTrackedShipments 0 15 (.raises "boom") ⟨true, []⟩ = (⟨true, []⟩, false)
    ∧ (updateTrackedShipments 0 15 (.raises "boom") ⟨false, []⟩).1.isRunning = false :=
  ⟨(cron_single_pass_guard 0 15 (.raises "boom") ⟨true, []⟩).1 rfl,
   ((cron_single_pass_guard 0 15 (.raises "boom") ⟨false, []⟩).2.1 rfl).2⟩

/-! ## Claim C1: most-recent-event selection -/

/-- C1 counterexample: on the spec's own scenario — events reported in the
order `[{Nov-15, 9310}, {Nov-17, 2300}, {Nov-14, 3010}]` — the Purolator
normalizer selects the event with code `"9310"` (the first reported), not
the maximum-timestamp event (code `"2300"`), so the claimed selection by
timestamp comparison does not hold. -/
theorem mostRecentEvent_counterexample :
    (transformPackage 0 scenarioPackage).lastEvent.code = "9310"
    ∧ (scenarioEvents.map (fun e => e.dateTime.getD 0)).max? = some 20221117104828
    ∧ (scenarioEvents.filter (fun e => e.dateTime == some 20221117104828)).map (·.code)
        = [some "2300"]
    ∧ ("9310" : String) ≠ "2300" := by
  refine ⟨rfl, by decide, by decide, by decide⟩

/-- C1 amended: both normalizers select the FIRST event of the reported
sequence as `lastEvent` (assuming carrier ordering newest-first); the
selection coincides with the maximum-timestamp event only when the reported
events are in fact ordered newest-first.  On the scenario above the selected
code is `"9310"`. -/
theorem lastEvent_is_first_reported (now : Nat) (pkg : Package) (e : Event)
    (es : List Event) (h : eventsArrayOf pkg = e :: es)
    (upkg : UpsPackage) (a : UpsActivity) (as : List UpsActivity)
    (hu : upkg.activity = some (a :: as)) :
    (transformPackage now pkg).lastEvent = transformEvent now e
    ∧ (transformUpsPackage now upkg).lastEvent = transformUpsActivity a
    ∧ (List.Pairwise (fun x y : Event => y.dateTime.getD now ≤ x.dateTime.getD now)
          (e :: es) →
        ∀ e' ∈ e :: es,
          (transformEvent now e').dateTime ≤ (transformPackage now pkg).lastEvent.dateTime) := by
  refine ⟨by simp [transformPackage, h], by simp [transformUpsPackage, hu], ?_⟩
  intro hsorted e' he'
  have hpkg : (transformPackage now pkg).lastEvent = transformEvent now e := by
    simp [transformPackage, h]
  rw [hpkg]
  rcases List.mem_cons.mp he' with rfl | hmem
  · exact Nat.le_refl _
  · exact (List.pairwise_cons.mp hsorted).1 e' hmem

/-- Witness for C1 amended, on the scenario package (Purolator) and a
two-activity UPS package. -/
theorem lastEvent_is_first_reported_witness :
    (transformPackage 5 scenarioPackage).lastEvent =
      transformEvent 5 { dateTime := some 20221115165216, code := some "9310"
                         description := some "Mechanical delay", location := none }
    ∧ (transformUpsPackage 5
        { trackingNumber := "1Z999", currentStatus := none, packageAddress := none
          activity := some [ { date := "20221115", time := "100000"
                               status := { code := some "OT", description := none }
                               location := none }
                           , { date := "20221117", time := "110000"
                               status := { code := some "DL", description := none }
                               location := none } ] }).lastEvent
      = transformUpsActivity { date := "20221115", time := "100000"
                               status := { code := some "OT", description := none }
                               location := none } :=
  ⟨(lastEvent_is_first_reported 5 scenarioPackage _ _ rfl
      { trackingNumber := "1Z999", currentStatus := none, packageAddress := none
        activity := some [ { date := "20221115", time := "100000"
                             status := { code := some "OT", description := none }
                             location := none }
                         , { date := "20221117", time := "110000"
                             status := { code := some "DL", description := none }
                             location := none } ] }
      _ _ rfl).1,
   (lastEvent_is_first_reported 5 scenarioPackage _ _ rfl
      { trackingNumber := "1Z999", currentStatus := none, packageAddress := none
        activity := some [ { date := "20221115", time := "100000"
                             status := { code := some "OT", description := none }
                             location := none }
                         , { date := "20221117", time := "110000"
                             status := { code := some "DL", description := none }
                             location := none } ] }
      _ _ rfl).2.1⟩

/-! ## Claim C2: status vocabulary and derivation -/

/-- On a structurally valid result, `transformTrackingResponse` is the
status/description cascade over the collected errors and first search
result. -/
theorem transformTrackingResponse_valid (now : Nat) (resp : List SoapElement)
    (result : SoapResult) (hres : soapResultOf resp = some result)
    (hinv : (result.ResponseInformation.isNone && result.SearchResults.isNone) = false) :
    transformTrackingResponse now resp =
      { status := (statusDescriptionOf (puroCollectedErrors result)
          (searchResultsArrayOf result.SearchResults).head?).1
        description := (statusDescriptionOf (puroCollectedErrors result)
          (searchResultsArrayOf result.SearchResults).head?).2
        errors := puroCollectedErrors result
        shipment := transformShipmentInfo now
          ((searchResultsArrayOf result.SearchResults).head?.bind (·.Shipment)) } := by
  simp [transformTrackingResponse, hres, hinv, puroCollectedErrors]

/-- The status the cascade yields is one of the three canonical values. -/
theorem statusDescriptionOf_mem (errs : List String) (fr : Option SearchResult) :
    (statusDescriptionOf errs fr).1 = "error"
    ∨ (statusDescriptionOf errs fr).1 = "not_found"
    ∨ (statusDescriptionOf errs fr).1 = "success" := by
  unfold statusDescriptionOf
  split
  · exact Or.inl rfl
  · cases fr with
    | none => exact Or.inr (Or.inl rfl)
    | some fr =>
      dsimp only
      split
      · exact Or.inr (Or.inl rfl)
      · split
        · exact Or.inr (Or.inl rfl)
        · exact Or.inr (Or.inr rfl)

/-- The cascade yields `error` exactly when errors were collected. -/
theorem statusDescriptionOf_error_iff (errs : List String) (fr : Option SearchResult) :
    (statusDescriptionOf errs fr).1 = "error" ↔ errs ≠ [] := by
  unfold statusDescriptionOf
  split
  · next h => simpa using List.length_pos.mp h
  · next h =>
    have he : errs = [] := by
      cases errs with
      | nil => rfl
      | cons a l => exact absurd (by simp) h
    subst he
    cases fr with
    | none => simp
    | some fr =>
      dsimp only
      split
      · simp
      · split <;> simp

/-- With no errors collected, the cascade yields `not_found` exactly when
there is no first search result, its status is `NOT_FOUND`, or it carries no
shipment payload. -/
theorem statusDescriptionOf_not_found_iff (fr : Option SearchResult) :
    ((statusDescriptionOf [] fr).1 = "not_found"
      ↔ fr = none ∨ ∃ r, fr = some r ∧ (r.status = some "NOT_FOUND" ∨ r.Shipment = none)) := by
  unfold statusDescriptionOf
  simp only [List.length_nil, gt_iff_lt, Nat.lt_irrefl, if_false]
  cases fr with
  | none => simp
  | some r =>
    dsimp only
    split
    · next hst => simp [hst]
    · next hst =>
      split
      · next hsh => simp [Option.isNone_iff_eq_none.mp hsh, hst]
      · next hsh =>
        simp only [Option.isNone_iff_eq_none] at hsh
        simp [hst, hsh]

/-- C2 counterexample: on a UPS response carrying a warning the normalizer
emits status `'warning'`, which is outside the claimed set
`{success, not_found, error}`, refuting the claimed status vocabulary for
every carrier normalizer. -/
theorem status_vocabulary_counterexample :
    (transformUpsResponse 0 (some upsWarningFixture) "1Z999").status = "warning"
    ∧ ¬((transformUpsResponse 0 (some upsWarningFixture) "1Z999").status = "success"
        ∨ (transformUpsResponse 0 (some upsWarningFixture) "1Z999").status = "not_found"
        ∨ (transformUpsResponse 0 (some upsWarningFixture) "1Z999").status = "error") := by
  refine ⟨rfl, by decide⟩

/-- C2 amended: the Purolator normalizer's status is always one of
`{success, not_found, error}`, with `error` exactly when errors were
collected and — absent errors on a valid result — `not_found` exactly when
no search result exists, its status is `NOT_FOUND`, or it has no shipment
payload.  The UPS normalizer instead uses the vocabulary
`{success, warning, ERROR}`: `ERROR` when shipment/package data is missing,
`warning` when carrier warnings were collected, `success` otherwise. -/
theorem status_derivation (now : Nat) (resp : List SoapElement)
    (uresp : Option UpsTrackApiResponse) (tn : String) :
    ((transformTrackingResponse now resp).status = "error"
      ∨ (transformTrackingResponse now resp).status = "not_found"
      ∨ (transformTrackingResponse now resp).status = "success")
    ∧ ((transformTrackingResponse now resp).status = "error"
        ↔ (transformTrackingResponse now resp).errors ≠ [])
    ∧ (∀ result, soapResultOf resp = some result →
        (result.ResponseInformation.isNone && result.SearchResults.isNone) = false →
        puroCollectedErrors result = [] →
        ((transformTrackingResponse now resp).status = "not_found"
          ↔ (searchResultsArrayOf result.SearchResults).head? = none
            ∨ ∃ r, (searchResultsArrayOf result.SearchResults).head? = some r
                ∧ (r.status = some "NOT_FOUND" ∨ r.Shipment = none)))
    ∧ ((transformUpsResponse now uresp tn).status = "success"
      ∨ (transformUpsResponse now uresp tn).status = "warning"
      ∨ (transformUpsResponse now uresp tn).status = "ERROR")
    ∧ ((uresp.bind (·.trackResponse)).bind (·.shipment) = none →
        (transformUpsResponse now uresp tn).status = "ERROR")
    ∧ (∀ shipments, (uresp.bind (·.trackResponse)).bind (·.shipment) = some shipments →
        shipments.head? = none → (transformUpsResponse now uresp tn).status = "ERROR")
    ∧ (∀ shipments shipment,
        (uresp.bind (·.trackResponse)).bind (·.shipment) = some shipments →
        shipments.head? = some shipment → shipment.package.getD [] = [] →
        (transformUpsResponse now uresp tn).status = "ERROR")
    ∧ (∀ shipments shipment p0 ps,
        (uresp.bind (·.trackResponse)).bind (·.shipment) = some shipments →
        shipments.head? = some shipment → shipment.package.getD [] = p0 :: ps →
        ((transformUpsResponse now uresp tn).status = "warning"
          ↔ upsWarningsOf shipment ≠ [])
        ∧ ((transformUpsResponse now uresp tn).status = "success"
          ↔ upsWarningsOf shipment = [])) := by
  have hups : (transformUpsResponse now uresp tn).status = "success"
      ∨ (transformUpsResponse now uresp tn).status = "warning"
      ∨ (transformUpsResponse now uresp tn).status = "ERROR" := by
    unfold transformUpsResponse
    dsimp only
    split
    · exact Or.inr (Or.inr rfl)
    · split
      · exact Or.inr (Or.inr rfl)
      · split
        · exact Or.inr (Or.inr rfl)
        · dsimp only
          split
          · exact Or.inr (Or.inl rfl)
          · exact Or.inl rfl
  have h5 : (uresp.bind (·.trackResponse)).bind (·.shipment) = none →
      (transformUpsResponse now uresp tn).status = "ERROR" := by
    intro h
    simp only [transformUpsResponse]
    rw [h]
    rfl
  have h6 : ∀ shipments, (uresp.bind (·.trackResponse)).bind (·.shipment) = some shipments →
      shipments.head? = none → (transformUpsResponse now uresp tn).status = "ERROR" := by
    intro shipments h hh
    simp only [transformUpsResponse]
    rw [h]
    dsimp only
    rw [hh]
    rfl
  have h7 : ∀ shipments shipment,
      (uresp.bind (·.trackResponse)).bind (·.shipment) = some shipments →
      shipments.head? = some shipment → shipment.package.getD [] = [] →
      (transformUpsResponse now uresp tn).status = "ERROR" := by
    intro shipments shipment h hh hpkg
    simp only [transformUpsResponse]
    rw [h]
    dsimp only
    rw [hh]
    dsimp only
    rw [hpkg]
    rfl
  have h8 : ∀ shipments shipment p0 ps,
      (uresp.bind (·.trackResponse)).bind (·.shipment) = some shipments →
      shipments.head? = some shipment → shipment.package.getD [] = p0 :: ps →
      ((transformUpsResponse now uresp tn).status = "warning"
        ↔ upsWarningsOf shipment ≠ [])
      ∧ ((transformUpsResponse now uresp tn).status = "success"
        ↔ upsWarningsOf shipment = []) := by
    intro shipments shipment p0 ps h hh hpkg
    have hred : (transformUpsResponse now uresp tn).status =
        (if (upsWarningsOf shipment).length > 0 then "warning" else "success") := by
      simp only [transformUpsResponse]
      rw [h]
      dsimp only
      rw [hh]
      dsimp only
      rw [hpkg]
    rw [hred]
    by_cases hw : upsWarningsOf shipment = []
    · simp [hw]
    · have hlen : 0 < (upsWarningsOf shipment).length := List.length_pos.mpr hw
      simp [hlen, hw]
  cases hres : soapResultOf resp with
  | none =>
    have hdef : transformTrackingResponse now resp = invalidStructureResponse now := by
      unfold transformTrackingResponse
      rw [hres]
    rw [hdef]
    refine ⟨Or.inl rfl, by simp [invalidStructureResponse], ?_, hups, h5, h6, h7, h8⟩
    intro result hr
    exact absurd hr (by simp)
  | some result =>
    by_cases hinv : (result.ResponseInformation.isNone && result.SearchResults.isNone) = true
    · have hdef : transformTrackingResponse now resp = invalidStructureResponse now := by
        unfold transformTrackingResponse
        rw [hres]
        simp [hinv]
      rw [hdef]
      refine ⟨Or.inl rfl, by simp [invalidStructureResponse], ?_, hups, h5, h6, h7, h8⟩
      intro result' hr' hinv'
      cases hr'
      exact absurd hinv (by simp [hinv'])
    · have hinv' : (result.ResponseInformation.isNone && result.SearchResults.isNone) = false :=
        eq_false_of_ne_true hinv
      rw [transformTrackingResponse_valid now resp result hres hinv']
      refine ⟨statusDescriptionOf_mem _ _, statusDescriptionOf_error_iff _ _, ?_, hups, h5, h6, h7, h8⟩
      intro result' hr' _ hempty
      cases hr'
      rw [hempty]
      exact statusDescriptionOf_not_found_iff _

/-- Witness for C2 amended at concrete inputs: an errorless Purolator
response with an empty search-result array yields `not_found`; the
warning-carrying UPS fixture yields a status in the UPS vocabulary, and —
its shipment/package data being present — that status is `warning` exactly
because warnings were collected. -/
theorem status_derivation_witness :
    ((transformTrackingResponse 0
        [.wrapped { ResponseInformation := some { Errors := some [] }
                    SearchResults := some (.arr []) }]).status = "not_found"
      ↔ (searchResultsArrayOf (some (.arr []))).head? = none
        ∨ ∃ r, (searchResultsArrayOf (some (.arr ([] : List SearchResult)))).head? = some r
            ∧ (r.status = some "NOT_FOUND" ∨ r.Shipment = none))
    ∧ ((transformUpsResponse 0 (some upsWarningFixture) "1Z999").status = "success"
      ∨ (transformUpsResponse 0 (some upsWarningFixture) "1Z999").status = "warning"
      ∨ (transformUpsResponse 0 (some upsWarningFixture) "1Z999").status = "ERROR")
    ∧ ((transformUpsResponse 0 (some upsWarningFixture) "1Z999").status = "warning"
        ↔ upsWarningsOf upsWarningShipment ≠ [])
    ∧ ((transformUpsResponse 0 (some upsWarningFixture) "1Z999").status = "success"
        ↔ upsWarningsOf upsWarningShipment = []) :=
  ⟨(status_derivation 0
      [.wrapped { ResponseInformation := some { Errors := some [] }
                  SearchResults := some (.arr []) }] (some upsWarningFixture) "1Z999").2.2.1
      { ResponseInformation := some { Errors := some [] }
        SearchResults := some (.arr []) } rfl rfl rfl,
   (status_derivation 0
      [.wrapped { ResponseInformation := some { Errors := some [] }
                  SearchResults := some (.arr []) }] (some upsWarningFixture) "1Z999").2.2.2.1,
   ((status_derivation 0
      [.wrapped { ResponseInformation := some { Errors := some [] }
                  SearchResults := some (.arr []) }] (some upsWarningFixture) "1Z999").2.2.2.2.2.2.2
      [upsWarningShipment] upsWarningShipment upsWarningPackage [] rfl rfl rfl).1,
   ((status_derivation 0
      [.wrapped { ResponseInformation := some { Errors := some [] }
                  SearchResults := some (.arr []) }] (some upsWarningFixture) "1Z999").2.2.2.2.2.2.2
      [upsWarningShipment] upsWarningShipment upsWarningPackage [] rfl rfl rfl).2⟩

/-! ## Claim C4: normalization totality and canonical empty values -/

/-- C4: the Purolator normalizer is total over the whole space of (possibly
malformed) SOAP payloads — every constructor of `SoapElement` /
`CollectionField` / `Option` field shape, including missing shipper, missing
events, single-object `packages`/`events`, null address subfields and
missing nested objects — and it substitutes the canonical empty values:
a missing shipment yields the empty shipment, missing details yield the
zero-value address, a single-object collection becomes a one-element
sequence, a package with neither events nor `lastEvent` gets the empty
event, and the response's shipment is always the (total) shipment transform
of whatever shipment payload could be extracted.  All address and location
fields of the output are plain `String`s by type. -/
theorem normalize_totality (now : Nat) (resp : List SoapElement) (si : ShipmentInfo)
    (pkgA pkgB : Package) (p : Package) (e : Event) :
    transformShipmentInfo now none = createEmptyShipment now
    ∧ transformAddress none =
        { city := "", proviceState := "", countryCode := "", postalZipCode := "" }
    ∧ transformLocation none =
        { address_1 := "", address_2 := "", city := "", proviceState := ""
          countryCode := "", postalZipCode := "" }
    ∧ (si.details = none →
        (transformShipmentInfo now (some si)).shipper = transformAddress none
        ∧ (transformShipmentInfo now (some si)).receiver = transformAddress none)
    ∧ (si.packages = some (.wrapped (.one p)) →
        (transformShipmentInfo now (some si)).packages = [transformPackage now p])
    ∧ (pkgA.events = some (.wrapped (.one e)) →
        (transformPackage now pkgA).lastEvent = transformEvent now e)
    ∧ (pkgB.events = none → pkgB.lastEvent = none →
        (transformPackage now pkgB).lastEvent = createEmptyEvent now)
    ∧ (transformTrackingResponse now resp).shipment
        = transformShipmentInfo now ((soapResultOf resp).bind (fun result =>
            if result.ResponseInformation.isNone && result.SearchResults.isNone then none
            else (searchResultsArrayOf result.SearchResults).head?.bind (·.Shipment))) := by
  refine ⟨rfl, rfl, rfl, ?_, ?_, ?_, ?_, ?_⟩
  · intro h
    exact ⟨by simp [transformShipmentInfo, h], by simp [transformShipmentInfo, h]⟩
  · intro h
    simp [transformShipmentInfo, h, CollectionField.toList]
  · intro h
    simp [transformPackage, eventsArrayOf, h, CollectionField.toList]
  · intro h1 h2
    simp [transformPackage, eventsArrayOf, h1, h2]
  · cases hres : soapResultOf resp with
    | none =>
      have hdef : transformTrackingResponse now resp = invalidStructureResponse now := by
        unfold transformTrackingResponse
        rw [hres]
      rw [hdef]
      rfl
    | some result =>
      by_cases hinv : (result.ResponseInformation.isNone && result.SearchResults.isNone) = true
      · have hdef : transformTrackingResponse now resp = invalidStructureResponse now := by
          unfold transformTrackingResponse
          rw [hres]
          simp [hinv]
        rw [hdef]
        show (invalidStructureResponse now).shipment =
          transformShipmentInfo now
            (if result.ResponseInformation.isNone && result.SearchResults.isNone then none
             else (searchResultsArrayOf result.SearchResults).head?.bind (·.Shipment))
        rw [hinv]
        rfl
      · have hinv' :
            (result.ResponseInformation.isNone && result.SearchResults.isNone) = false :=
          eq_false_of_ne_true hinv
        rw [transformTrackingResponse_valid now resp result hres hinv']
        show transformShipmentInfo now
            ((searchResultsArrayOf result.SearchResults).head?.bind (·.Shipment)) =
          transformShipmentInfo now
            (if result.ResponseInformation.isNone && result.SearchResults.isNone then none
             else (searchResultsArrayOf result.SearchResults).head?.bind (·.Shipment))
        rw [hinv']
        rfl

/-- Witness for C4 on the fixtures: missing details give the zero-value
addresses, the single-object package becomes a one-element sequence, the
single-object event is selected, and the event-less package gets the
canonical empty event. -/
theorem normalize_totality_witness :
    ((transformShipmentInfo 4 (some wSi)).shipper = transformAddress none
      ∧ (transformShipmentInfo 4 (some wSi)).receiver = transformAddress none)
    ∧ (transformShipmentInfo 4 (some wSi)).packages = [transformPackage 4 wPkgA]
    ∧ (transformPackage 4 wPkgA).lastEvent = transformEvent 4 wEvent
    ∧ (transformPackage 4 wPkgB).lastEvent = createEmptyEvent 4 :=
  ⟨(normalize_totality 4 [] wSi wPkgA wPkgB wPkgA wEvent).2.2.2.1 rfl,
   (normalize_totality 4 [] wSi wPkgA wPkgB wPkgA wEvent).2.2.2.2.1 rfl,
   (normalize_totality 4 [] wSi wPkgA wPkgB wPkgA wEvent).2.2.2.2.2.1 rfl,
   (normalize_totality 4 [] wSi wPkgA wPkgB wPkgA wEvent).2.2.2.2.2.2.1 rfl rfl⟩

/-! ## Claim C5: staleness selection -/

/-- C5: `getShipmentsNeedingUpdate` returns only (the key projections of)
records strictly older than the cutoff whose stored shipment is not
delivered (and in fact active), projected to the two key fields, in
oldest-first order of `lastUpdated`; in particular no record updated within
the window and no delivered record is ever returned. -/
theorem getShipmentsNeedingUpdate_spec (now m : Nat) (db : List TrackedRecord) :
    (∀ k ∈ getShipmentsNeedingUpdate now m db,
      ∃ r ∈ db, r.trackingNo = k.trackingNo ∧ r.service = k.service
        ∧ r.isActive = true ∧ r.lastUpdated < now - m * 60 * 1000
        ∧ r.trackingResponse.shipment.isDelivered = false)
    ∧ List.Sorted lastUpdatedLE
        ((db.filter (needsUpdate (now - m * 60 * 1000))).insertionSort lastUpdatedLE)
    ∧ ((db.filter (needsUpdate (now - m * 60 * 1000))).insertionSort lastUpdatedLE).Perm
        (db.filter (needsUpdate (now - m * 60 * 1000)))
    ∧ getShipmentsNeedingUpdate now m db
        = ((db.filter (needsUpdate (now - m * 60 * 1000))).insertionSort lastUpdatedLE).map
            (fun r => { trackingNo := r.trackingNo, service := r.service }) := by
  refine ⟨?_, List.sorted_insertionSort _ _, List.perm_insertionSort _ _, rfl⟩
  intro k hk
  simp only [getShipmentsNeedingUpdate, List.mem_map] at hk
  obtain ⟨r, hr, rfl⟩ := hk
  rw [List.mem_insertionSort, List.mem_filter] at hr
  obtain ⟨hrdb, hcond⟩ := hr
  have hc : (r.isActive = true ∧ r.lastUpdated < now - m * 60 * 1000)
      ∧ r.trackingResponse.shipment.isDelivered = false := by
    simpa [needsUpdate, Bool.and_eq_true, decide_eq_true_eq] using hcond
  exact ⟨r, hrdb, rfl, rfl, hc.1.1, hc.1.2, hc.2⟩

/-- Witness for C5: at `now` one minute past the 15-minute window, the
single active, undelivered, stale record is selected. -/
theorem getShipmentsNeedingUpdate_spec_witness :
    ∃ r ∈ [wStaleRecord],
      r.trackingNo = (⟨"T1", "purolator"⟩ : StaleKey).trackingNo
      ∧ r.service = (⟨"T1", "purolator"⟩ : StaleKey).service
      ∧ r.isActive = true ∧ r.lastUpdated < 16 * 60 * 1000 - 15 * 60 * 1000
      ∧ r.trackingResponse.shipment.isDelivered = false :=
  (getShipmentsNeedingUpdate_spec (16 * 60 * 1000) 15 [wStaleRecord]).1
    ⟨"T1", "purolator"⟩ (by decide)

/-! ## Claim C7: per-shipment failure isolation in a pass -/

/-- The update loop processes a concatenation sequentially. -/
theorem processShipments_append (now : Nat) (db : List TrackedRecord)
    (xs ys : List (StaleKey × ShipmentOutcome)) :
    processShipments now db (xs ++ ys)
      = processShipments now (processShipments now db xs) ys := by
  induction xs generalizing db with
  | nil => rfl
  | cons x xs ih =>
    cases x
    simp only [List.cons_append, processShipments]
    exact ih _

/-- C7: inside one pass, a shipment whose carrier call throws, or returns an
`'error'`-status result, has the failure recorded on its own record via
`recordError`, and the remaining shipments of the stale list are still
processed from that state: one shipment's failure never aborts the batch. -/
theorem pass_isolates_failures (now : Nat) (db : List TrackedRecord)
    (pre post : List (StaleKey × ShipmentOutcome)) (k : StaleKey) (msg : String)
    (resp : TrackingResponse) (hs : isCarrierSupported k.service = true)
    (herr : resp.status = "error") :
    processShipments now db (pre ++ (k, .throws msg) :: post)
      = processShipments now
          (recordErrorDb k.trackingNo k.service msg now (processShipments now db pre)) post
    ∧ processShipments now db (pre ++ (k, .result resp) :: post)
      = processShipments now
          (recordErrorDb k.trackingNo k.service (String.intercalate ", " resp.errors) now
            (processShipments now db pre)) post := by
  constructor
  · rw [processShipments_append]
    simp only [processShipments, processShipment, hs, Bool.not_true, Bool.false_eq_true,
      if_false]
  · rw [processShipments_append]
    simp only [processShipments, processShipment, hs, herr, Bool.not_true,
      Bool.false_eq_true, if_false, beq_self_eq_true, if_true]

/-- Witness for C7: a thrown transport error and an `'error'`-status result
on the single stale shipment are both recorded and the (empty) remainder is
still processed. -/
theorem pass_isolates_failures_witness :
    processShipments 9 [wStaleRecord] [(⟨"T1", "purolator"⟩, .throws "socket hang up")]
      = processShipments 9
          (recordErrorDb (⟨"T1", "purolator"⟩ : StaleKey).trackingNo
            (⟨"T1", "purolator"⟩ : StaleKey).service "socket hang up" 9
            (processShipments 9 [wStaleRecord] [])) []
    ∧ processShipments 9 [wStaleRecord] [(⟨"T1", "purolator"⟩, .result errorStatusResponse)]
      = processShipments 9
          (recordErrorDb (⟨"T1", "purolator"⟩ : StaleKey).trackingNo
            (⟨"T1", "purolator"⟩ : StaleKey).service
            (String.intercalate ", " errorStatusResponse.errors) 9
            (processShipments 9 [wStaleRecord] [])) [] :=
  ⟨(pass_isolates_failures 9 [wStaleRecord] [] [] ⟨"T1", "purolator"⟩ "socket hang up"
      errorStatusResponse (by decide) rfl).1,
   (pass_isolates_failures 9 [wStaleRecord] [] [] ⟨"T1", "purolator"⟩ "socket hang up"
      errorStatusResponse (by decide) rfl).2⟩


/-! ## Claim C3: error counting, threshold deactivation, upsert reset -/

/-- Effect of `n + 1` consecutive `recordError` calls on one document: the
count increases by `n + 1`, and the record is inactive exactly when the
count has reached 10 (otherwise `isActive` is untouched). -/
theorem recordErrorRecord_iterate (msg : String) (now : Nat) (r : TrackedRecord)
    (n : Nat) :
    ((recordErrorRecord msg now)^[n + 1] r).errorCount = r.errorCount + (n + 1)
    ∧ ((recordErrorRecord msg now)^[n + 1] r).isActive
        = if r.errorCount + (n + 1) ≥ 10 then false else r.isActive := by
  induction n with
  | zero =>
    exact ⟨rfl, rfl⟩
  | succ n ih =>
    rw [Function.iterate_succ_apply']
    constructor
    · simp only [recordErrorRecord, ih.1]
      omega
    · simp only [recordErrorRecord, ih.1, ih.2]
      by_cases h2 : r.errorCount + (n + 1 + 1) ≥ 10
      · rw [if_pos (by omega : r.errorCount + (n + 1) + 1 ≥ 10), if_pos h2]
      · rw [if_neg (by omega : ¬ r.errorCount + (n + 1) + 1 ≥ 10),
          if_neg (by omega : ¬ r.errorCount + (n + 1) ≥ 10), if_neg h2]

/-- C3 amended: starting from a record with `errorCount = 0`, `N`
consecutive `recordError` calls with no intervening upsert yield
`errorCount = N`; once `N` reaches 10 the same `recordError` call that made
the count 10 has set `isActive := false` (below 10 `isActive` is untouched);
a subsequent upsert resets `errorCount` to 0 and clears `lastError` but
leaves `isActive` exactly as it was — it reactivates neither a
user-deactivated record nor one deactivated by the error threshold. -/
theorem recordError_threshold_and_upsert (msg : String) (now now2 : Nat)
    (r : TrackedRecord) (n : Nat) (resp : TrackingResponse)
    (h0 : r.errorCount = 0) :
    ((recordErrorRecord msg now)^[n] r).errorCount = n
    ∧ (10 ≤ n → ((recordErrorRecord msg now)^[n] r).isActive = false)
    ∧ (n < 10 → ((recordErrorRecord msg now)^[n] r).isActive = r.isActive)
    ∧ (upsertRecord resp now2 ((recordErrorRecord msg now)^[n] r)).errorCount = 0
    ∧ (upsertRecord resp now2 ((recordErrorRecord msg now)^[n] r)).lastError = none
    ∧ (upsertRecord resp now2 ((recordErrorRecord msg now)^[n] r)).isActive
        = ((recordErrorRecord msg now)^[n] r).isActive := by
  cases n with
  | zero => exact ⟨h0, fun h => absurd h (by omega), fun _ => rfl, rfl, rfl, rfl⟩
  | succ n =>
    obtain ⟨hc, ha⟩ := recordErrorRecord_iterate msg now r n
    rw [h0] at hc ha
    simp only [Nat.zero_add] at hc ha
    refine ⟨hc, fun h => ?_, fun h => ?_, rfl, rfl, rfl⟩
    · rw [ha, if_pos h]
    · rw [ha, if_neg (by omega)]

/-- Witness for C3 amended: ten consecutive `recordError` calls on a fresh
record reach count 10 and deactivate it; the subsequent upsert zeroes the
count, clears the error, and leaves it deactivated. -/
theorem recordError_threshold_and_upsert_witness :
    ((recordErrorRecord "carrier timeout" 2)^[10] wStaleRecord).errorCount = 10
    ∧ ((recordErrorRecord "carrier timeout" 2)^[10] wStaleRecord).isActive = false
    ∧ (upsertRecord sampleResponse 3
        ((recordErrorRecord "carrier timeout" 2)^[10] wStaleRecord)).errorCount = 0
    ∧ (upsertRecord sampleResponse 3
        ((recordErrorRecord "carrier timeout" 2)^[10] wStaleRecord)).isActive
      = ((recordErrorRecord "carrier timeout" 2)^[10] wStaleRecord).isActive :=
  ⟨(recordError_threshold_and_upsert "carrier timeout" 2 3 wStaleRecord 10
      sampleResponse rfl).1,
   (recordError_threshold_and_upsert "carrier timeout" 2 3 wStaleRecord 10
      sampleResponse rfl).2.1 (by omega),
   (recordError_threshold_and_upsert "carrier timeout" 2 3 wStaleRecord 10
      sampleResponse rfl).2.2.2.1,
   (recordError_threshold_and_upsert "carrier timeout" 2 3 wStaleRecord 10
      sampleResponse rfl).2.2.2.2.2⟩

/-- C3 counterexample: a record deactivated by the 10-error reconciliation
threshold is NOT reactivated by a subsequent successful upsert — after
`findOrCreate` the count and error are reset but `isActive` is still
`false`, refuting the claim that threshold-driven deactivation is reset
(reactivated) by upsert. -/
theorem upsert_does_not_reactivate_counterexample :
    (deactivatedDb.find? (keyMatches "T1" "purolator")).map
        (fun r => (r.errorCount, r.isActive)) = some (10, false)
    ∧ (afterUpsertDb.find? (keyMatches "T1" "purolator")).map
        (fun r => (r.errorCount, r.isActive, r.lastError)) = some (0, false, none)
    ∧ ¬ (afterUpsertDb.find? (keyMatches "T1" "purolator")).map (·.isActive) = some true := by
  refine ⟨by decide, by decide, by decide⟩

/-! ## Claim C8: idempotent upsert -/

/-- Updating the first match twice composes when the update preserves the
predicate. -/
theorem updateFirstMatch_updateFirstMatch (p : TrackedRecord → Bool)
    (f g : TrackedRecord → TrackedRecord) (db : List TrackedRecord)
    (hg : ∀ r, p (g r) = p r) :
    updateFirstMatch p f (updateFirstMatch p g db)
      = updateFirstMatch p (fun r => f (g r)) db := by
  induction db with
  | nil => rfl
  | cons r rs ih =>
    by_cases hp : p r = true
    · simp [updateFirstMatch, hp, hg]
    · simp [updateFirstMatch, hp, ih]

/-- Behaviour of `find?` after updating the first match, when the update preserves the
predicate. -/
theorem find?_updateFirstMatch (p : TrackedRecord → Bool)
    (f : TrackedRecord → TrackedRecord) (db : List TrackedRecord)
    (hf : ∀ r, p (f r) = p r) :
    (updateFirstMatch p f db).find? p = (db.find? p).map f := by
  induction db with
  | nil => rfl
  | cons r rs ih =>
    by_cases hp : p r = true
    · rw [updateFirstMatch, if_pos hp, List.find?_cons_of_pos _ ((hf r).trans hp),
        List.find?_cons_of_pos _ hp, Option.map_some']
    · rw [updateFirstMatch, if_neg hp, List.find?_cons_of_neg _ hp,
        List.find?_cons_of_neg _ hp, ih]

/-- Count `countP` is unchanged by updating the first match, when the update
preserves the predicate. -/
theorem countP_updateFirstMatch (p : TrackedRecord → Bool)
    (f : TrackedRecord → TrackedRecord) (db : List TrackedRecord)
    (hf : ∀ r, p (f r) = p r) :
    (updateFirstMatch p f db).countP p = db.countP p := by
  induction db with
  | nil => rfl
  | cons r rs ih =>
    by_cases hp : p r = true
    · simp [updateFirstMatch, hp, List.countP_cons, hf]
    · simp [updateFirstMatch, hp, List.countP_cons, ih]

/-- Updating the first match skips a prefix with no matches. -/
theorem updateFirstMatch_append_of_forall (p : TrackedRecord → Bool)
    (f : TrackedRecord → TrackedRecord) (db l : List TrackedRecord)
    (h : ∀ x ∈ db, p x = false) :
    updateFirstMatch p f (db ++ l) = db ++ updateFirstMatch p f l := by
  induction db with
  | nil => rfl
  | cons r rs ih =>
    have hr : p r = false := h r (List.mem_cons_self _ _)
    simp only [List.cons_append, updateFirstMatch, hr, Bool.false_eq_true, if_false,
      List.cons.injEq, true_and]
    exact ih (fun x hx => h x (List.mem_cons_of_mem _ hx))

/-- Applying `upsertRecord` writes the same four fields regardless of what an earlier
`upsertRecord` wrote. -/
theorem upsertRecord_upsertRecord (resp : TrackingResponse) (now1 now2 : Nat)
    (r : TrackedRecord) :
    upsertRecord resp now2 (upsertRecord resp now1 r) = upsertRecord resp now2 r := rfl

/-- Applying `upsertRecord` preserves the record's key. -/
theorem keyMatches_upsertRecord (tn sv : String) (resp : TrackingResponse) (now : Nat)
    (r : TrackedRecord) :
    keyMatches tn sv (upsertRecord resp now r) = keyMatches tn sv r := rfl

/-- The fresh record `findOrCreate` inserts matches its own key. -/
theorem keyMatches_self (tn sv : String) (resp : TrackingResponse) (now : Nat) :
    keyMatches tn sv
      { trackingNo := tn, service := sv, trackingResponse := resp, lastUpdated := now
        isActive := true, errorCount := 0, lastError := none } = true := by
  simp [keyMatches]

/-- C8: upserting the same key and response twice leaves the store in
exactly the state of upserting once (at the later instant, so the only
difference against the single first call is `lastUpdated`): one record
exists for the key, holding the given response with `errorCount = 0`,
`lastError` cleared and `isActive` exactly as after one call. -/
theorem upsert_idempotent (tn sv : String) (resp : TrackingResponse) (now1 now2 : Nat)
    (db : List TrackedRecord) (huniq : db.countP (keyMatches tn sv) ≤ 1) :
    findOrCreate tn sv resp now2 (findOrCreate tn sv resp now1 db)
      = findOrCreate tn sv resp now2 db
    ∧ (findOrCreate tn sv resp now2 (findOrCreate tn sv resp now1 db)).countP
        (keyMatches tn sv) = 1
    ∧ ((findOrCreate tn sv resp now2 (findOrCreate tn sv resp now1 db)).find?
        (keyMatches tn sv)).map (fun r => (r.trackingResponse, r.errorCount, r.lastError))
      = some (resp, 0, none)
    ∧ ((findOrCreate tn sv resp now2 (findOrCreate tn sv resp now1 db)).find?
        (keyMatches tn sv)).map (·.isActive)
      = ((findOrCreate tn sv resp now1 db).find? (keyMatches tn sv)).map (·.isActive) := by
  by_cases h : (db.find? (keyMatches tn sv)).isSome = true
  · obtain ⟨r0, hr0⟩ := Option.isSome_iff_exists.mp h
    have hone : findOrCreate tn sv resp now1 db
        = updateFirstMatch (keyMatches tn sv) (upsertRecord resp now1) db := by
      rw [findOrCreate, if_pos h]
    have hfind1 : (findOrCreate tn sv resp now1 db).find? (keyMatches tn sv)
        = some (upsertRecord resp now1 r0) := by
      rw [hone, find?_updateFirstMatch _ _ _ (keyMatches_upsertRecord tn sv resp now1),
        hr0, Option.map_some']
    have htwo : findOrCreate tn sv resp now2 (findOrCreate tn sv resp now1 db)
        = updateFirstMatch (keyMatches tn sv) (upsertRecord resp now2) db := by
      rw [findOrCreate, if_pos (by rw [hfind1]; rfl), hone,
        updateFirstMatch_updateFirstMatch _ _ _ _
          (keyMatches_upsertRecord tn sv resp now1)]
      rfl
    have hmain : findOrCreate tn sv resp now2 (findOrCreate tn sv resp now1 db)
        = findOrCreate tn sv resp now2 db := by
      rw [htwo, findOrCreate, if_pos h]
    have hfind2 : (findOrCreate tn sv resp now2 (findOrCreate tn sv resp now1 db)).find?
        (keyMatches tn sv) = some (upsertRecord resp now2 r0) := by
      rw [htwo, find?_updateFirstMatch _ _ _ (keyMatches_upsertRecord tn sv resp now2),
        hr0, Option.map_some']
    have hcount1 : 1 ≤ db.countP (keyMatches tn sv) := by
      have hmem := List.mem_of_find?_eq_some hr0
      have hp := List.find?_some hr0
      exact List.countP_pos_iff.mpr ⟨r0, hmem, hp⟩
    refine ⟨hmain, ?_, ?_, ?_⟩
    · rw [htwo, countP_updateFirstMatch _ _ _ (keyMatches_upsertRecord tn sv resp now2)]
      omega
    · rw [hfind2]
      rfl
    · rw [hfind2, hfind1]
      rfl
  · have hnone : db.find? (keyMatches tn sv) = none :=
      Option.not_isSome_iff_eq_none.mp (by simpa using h)
    have hall : ∀ x ∈ db, keyMatches tn sv x = false := by
      intro x hx
      have := List.find?_eq_none.mp hnone x hx
      exact Bool.not_eq_true _ ▸ eq_false_of_ne_true this
    have hone : findOrCreate tn sv resp now1 db
        = db ++ [{ trackingNo := tn, service := sv, trackingResponse := resp
                   lastUpdated := now1, isActive := true, errorCount := 0
                   lastError := none }] := by
      rw [findOrCreate, if_neg (by simp [hnone])]
    have hfind1 : (findOrCreate tn sv resp now1 db).find? (keyMatches tn sv)
        = some { trackingNo := tn, service := sv, trackingResponse := resp
                 lastUpdated := now1, isActive := true, errorCount := 0
                 lastError := none } := by
      rw [hone, List.find?_append, hnone, Option.none_or,
        List.find?_cons_of_pos _ (keyMatches_self tn sv resp now1)]
    have htwo : findOrCreate tn sv resp now2 (findOrCreate tn sv resp now1 db)
        = db ++ [{ trackingNo := tn, service := sv, trackingResponse := resp
                   lastUpdated := now2, isActive := true, errorCount := 0
                   lastError := none }] := by
      rw [findOrCreate, if_pos (by rw [hfind1]; rfl), hone,
        updateFirstMatch_append_of_forall _ _ _ _ hall]
      rw [updateFirstMatch, if_pos (keyMatches_self tn sv resp now1)]
      rfl
    have hmain : findOrCreate tn sv resp now2 (findOrCreate tn sv resp now1 db)
        = findOrCreate tn sv resp now2 db := by
      rw [htwo, findOrCreate, if_neg (by simp [hnone])]
    have hfind2 : (findOrCreate tn sv resp now2 (findOrCreate tn sv resp now1 db)).find?
        (keyMatches tn sv)
        = some { trackingNo := tn, service := sv, trackingResponse := resp
                 lastUpdated := now2, isActive := true, errorCount := 0
                 lastError := none } := by
      rw [htwo, List.find?_append, hnone, Option.none_or,
        List.find?_cons_of_pos _ (keyMatches_self tn sv resp now2)]
    have hzero : db.countP (keyMatches tn sv) = 0 :=
      List.countP_eq_zero.mpr (fun a ha => by simp [hall a ha])
    refine ⟨hmain, ?_, ?_, ?_⟩
    · rw [htwo, List.countP_append, hzero,
        List.countP_cons_of_pos _ _ (keyMatches_self tn sv resp now2)]
      rfl
    · rw [hfind2]
      rfl
    · rw [hfind2, hfind1]
      rfl

/-- Witness for C8 on the empty store: after two identical upserts the store
equals the once-upserted store and holds exactly one record with the sample
response, zero errors and no last error. -/
theorem upsert_idempotent_witness :
    findOrCreate "T1" "purolator" sampleResponse 8
        (findOrCreate "T1" "purolator" sampleResponse 7 [])
      = findOrCreate "T1" "purolator" sampleResponse 8 []
    ∧ (findOrCreate "T1" "purolator" sampleResponse 8
        (findOrCreate "T1" "purolator" sampleResponse 7 [])).countP
        (keyMatches "T1" "purolator") = 1
    ∧ ((findOrCreate "T1" "purolator" sampleResponse 8
        (findOrCreate "T1" "purolator" sampleResponse 7 [])).find?
        (keyMatches "T1" "purolator")).map
          (fun r => (r.trackingResponse, r.errorCount, r.lastError))
      = some (sampleResponse, 0, none) :=
  ⟨(upsert_idempotent "T1" "purolator" sampleResponse 7 8 [] (by decide)).1,
   (upsert_idempotent "T1" "purolator" sampleResponse 7 8 [] (by decide)).2.1,
   (upsert_idempotent "T1" "purolator" sampleResponse 7 8 [] (by decide)).2.2.1⟩

/-! ## Claim C10: upsert never touches `isActive`; inserts are active -/

/-- Updating the first match relates the old and new lists pointwise: every
position holds either the untouched record or, at the first match, the
updated one. -/
theorem forall₂_updateFirstMatch {R : TrackedRecord → TrackedRecord → Prop}
    (p : TrackedRecord → Bool) (f : TrackedRecord → TrackedRecord)
    (hrefl : ∀ r, R r r) (hf : ∀ r, p r = true → R r (f r)) :
    ∀ db : List TrackedRecord, List.Forall₂ R db (updateFirstMatch p f db)
  | [] => List.Forall₂.nil
  | r :: rs => by
    by_cases hp : p r = true
    · show List.Forall₂ R (r :: rs)
        (if p r = true then f r :: rs else r :: updateFirstMatch p f rs)
      rw [if_pos hp]
      exact List.Forall₂.cons (hf r hp) (List.forall₂_same.mpr (fun x _ => hrefl x))
    · show List.Forall₂ R (r :: rs)
        (if p r = true then f r :: rs else r :: updateFirstMatch p f rs)
      rw [if_neg hp]
      exact List.Forall₂.cons (hrefl r) (forall₂_updateFirstMatch p f hrefl hf rs)

/-- C10: `findOrCreate` splits the resulting store into the image of the old
records — each unchanged, or (only at the key) changed solely in
`trackingResponse`/`lastUpdated`/`errorCount`/`lastError`, with `isActive`,
`trackingNo` and `service` preserved — plus at most one freshly inserted
record, which is always active with `errorCount = 0` and no `lastError`. -/
theorem upsert_frame (tn sv : String) (resp : TrackingResponse) (now : Nat)
    (db : List TrackedRecord) :
    ∃ base extra, findOrCreate tn sv resp now db = base ++ extra
      ∧ List.Forall₂ (fun r r' =>
          r'.isActive = r.isActive ∧ r'.trackingNo = r.trackingNo
          ∧ r'.service = r.service
          ∧ (keyMatches tn sv r = false → r' = r)
          ∧ (r' = r ∨ r' = upsertRecord resp now r)) db base
      ∧ ∀ r' ∈ extra, r'.isActive = true ∧ r'.errorCount = 0 ∧ r'.lastError = none := by
  by_cases h : (db.find? (keyMatches tn sv)).isSome = true
  · refine ⟨updateFirstMatch (keyMatches tn sv) (upsertRecord resp now) db, [], ?_, ?_, ?_⟩
    · rw [findOrCreate, if_pos h, List.append_nil]
    · exact forall₂_updateFirstMatch _ _
        (fun r => ⟨rfl, rfl, rfl, fun _ => rfl, Or.inl rfl⟩)
        (fun r hp => ⟨rfl, rfl, rfl,
          fun hc => absurd hp (by rw [hc]; exact Bool.false_ne_true), Or.inr rfl⟩) db
    · intro r' hr'
      exact absurd hr' (List.not_mem_nil r')
  · refine ⟨db,
      [{ trackingNo := tn, service := sv, trackingResponse := resp, lastUpdated := now
         isActive := true, errorCount := 0, lastError := none }], ?_, ?_, ?_⟩
    · rw [findOrCreate, if_neg (by simpa using h)]
    · exact List.forall₂_same.mpr
        (fun x _ => ⟨rfl, rfl, rfl, fun _ => rfl, Or.inl rfl⟩)
    · intro r' hr'
      rw [List.mem_singleton] at hr'
      subst hr'
      exact ⟨rfl, rfl, rfl⟩

end AvTrack
